import Mathlib

/-!
Shallow embedding of `src/Source/ViewManager.cpp` (CS-330 final project,
ViewManager class): window creation, mouse/scroll/keyboard input handling
and per-frame view/projection preparation for a 3D camera.

Modelling conventions:
* C++ `float`/`double` values are embedded as exact rationals `ℚ`.
* External library calls (GLFW, GLM, the separately implemented `Camera`
  object and the `ShaderManager` sink) are not part of this translation
  unit; they are modelled as explicit inputs: key/cursor/scroll state is
  passed in, and the externally defined functions `glm::normalize`,
  `glm::radians`, `glm::perspective`, `glm::ortho`,
  `Camera::ProcessMouseMovement` and `Camera::GetViewMatrix` are bundled
  in an `Ext` record over which the theorems quantify.  Calls into the
  `ShaderManager` and the side effects of window creation are recorded as
  explicit traces.
* The anonymous-namespace globals of `ViewManager.cpp` together with the
  function-`static` locals of the two mouse callbacks and the relevant
  window/member state form the record `VMState`.
-/

namespace ViewManagerSpec

/-- 3-component vector, the embedding of `glm::vec3`. -/
structure Vec3 where
  x : ℚ
  y : ℚ
  z : ℚ
  deriving DecidableEq, Repr

instance : Add Vec3 := ⟨fun a b => ⟨a.x + b.x, a.y + b.y, a.z + b.z⟩⟩
instance : Sub Vec3 := ⟨fun a b => ⟨a.x - b.x, a.y - b.y, a.z - b.z⟩⟩
instance : SMul ℚ Vec3 := ⟨fun c v => ⟨c * v.x, c * v.y, c * v.z⟩⟩
instance : Zero Vec3 := ⟨⟨0, 0, 0⟩⟩

/-- The embedding of `glm::cross` (standard cross product, as documented
by GLM). -/
def cross (a b : Vec3) : Vec3 :=
  ⟨a.y * b.z - a.z * b.y, a.z * b.x - a.x * b.z, a.x * b.y - a.y * b.x⟩

/-- 4x4 matrix type for the values produced by the GLM projection
functions and consumed by the shader sink (entries column-major, as in
GLM). -/
def Mat4 : Type := Fin 4 → Fin 4 → ℚ

/-- Key-poll results for one frame: the value of `glfwGetKey` for each
key this translation unit queries (`true` = `GLFW_PRESS`). -/
structure Keys where
  w : Bool
  s : Bool
  a : Bool
  d : Bool
  q : Bool
  e : Bool
  escape : Bool
  o : Bool
  p : Bool
  deriving DecidableEq, Repr

/-- The externally implemented `Camera` object: the fields this
translation unit reads and writes (`Position`, `Front`, `Up`, `Zoom`). -/
structure Camera where
  Position : Vec3
  Front : Vec3
  Up : Vec3
  Zoom : ℚ
  deriving DecidableEq, Repr

/-- Externally defined functions called by `ViewManager.cpp` but
implemented outside this translation unit (GLM library and the `Camera`
class).  The theorems quantify over this record. -/
structure Ext where
  normalize : Vec3 → Vec3
  radians : ℚ → ℚ
  perspective : ℚ → ℚ → ℚ → ℚ → Mat4
  ortho : ℚ → ℚ → ℚ → ℚ → ℚ → ℚ → Mat4
  ProcessMouseMovement : Camera → ℚ → ℚ → Camera
  GetViewMatrix : Camera → Mat4

/-- `WINDOW_WIDTH` (ViewManager.cpp line 29). -/
def WINDOW_WIDTH : ℚ := 1000

/-- `WINDOW_HEIGHT` (ViewManager.cpp line 30). -/
def WINDOW_HEIGHT : ℚ := 800

/-- The mutable state of the translation unit: the anonymous-namespace
globals (lines 26-53), the two function-`static` locals named
`gCameraSpeedMultiplier` inside `Mouse_Position_Callback` (line 164) and
`Mouse_Scroll_Callback` (line 184) that shadow the global of the same
name, the camera object pointed to by `g_pCamera`, the window's
should-close flag, and whether `m_pShaderManager` is null. -/
structure VMState where
  gLastX : ℚ
  gLastY : ℚ
  gFirstMouse : Bool
  /-- the namespace-scope global `gCameraSpeedMultiplier` (line 44) -/
  gCameraSpeedMultiplier : ℚ
  /-- the `static` local of `Mouse_Position_Callback` (line 164) -/
  mouseStaticSpeedMultiplier : ℚ
  /-- the `static` local of `Mouse_Scroll_Callback` (line 184) -/
  scrollStaticSpeedMultiplier : ℚ
  gDeltaTime : ℚ
  gLastFrame : ℚ
  bOrthographicProjection : Bool
  camera : Camera
  windowShouldClose : Bool
  hasShaderManager : Bool
  deriving DecidableEq, Repr

/-- State after the constructor `ViewManager::ViewManager` (lines 60-72)
has run, given the namespace-scope initializers (lines 39-52) and the
initial values of the two function-`static` locals (lines 164, 184).
`hasShader` records whether the `ShaderManager*` passed to the
constructor is non-null; the window's should-close flag starts unset. -/
def initialVMState (hasShader : Bool) : VMState where
  gLastX := WINDOW_WIDTH / 2
  gLastY := WINDOW_HEIGHT / 2
  gFirstMouse := true
  gCameraSpeedMultiplier := 1
  mouseStaticSpeedMultiplier := 1
  scrollStaticSpeedMultiplier := 1
  gDeltaTime := 0
  gLastFrame := 0
  bOrthographicProjection := false
  camera :=
    { Position := ⟨0, 5, 12⟩
      Front := ⟨0, -0.5, -2⟩
      Up := ⟨0, 1, 0⟩
      Zoom := 80 }
  windowShouldClose := false
  hasShaderManager := hasShader

/-- The speed-multiplier update block that appears verbatim both in
`Mouse_Position_Callback` (lines 166-170) and in `Mouse_Scroll_Callback`
(lines 186-190): add `yOffset * 0.1`, then floor at `0.1`, then cap at
`10.0`. -/
def speedAdjust (m yOffset : ℚ) : ℚ :=
  let m1 := m + yOffset * 0.1
  let m2 := if m1 < 0.1 then 0.1 else m1
  if m2 > 10 then 10 else m2

/-- `ViewManager::Mouse_Scroll_Callback` (lines 181-194): updates its own
function-`static` `gCameraSpeedMultiplier` from the vertical scroll
offset and logs it.  The horizontal offset is unused. -/
def Mouse_Scroll_Callback (st : VMState) (_xOffset yOffset : ℚ) : VMState :=
  { st with
      scrollStaticSpeedMultiplier :=
        speedAdjust st.scrollStaticSpeedMultiplier yOffset }

/-- `ViewManager::Mouse_Position_Callback` (lines 139-175).  Returns the
updated state together with the `(xOffset, yOffset)` pair forwarded to
`Camera::ProcessMouseMovement` (line 161).  After forwarding, the
callback updates its own function-`static` `gCameraSpeedMultiplier` from
the (sensitivity-scaled) vertical offset (lines 164-170). -/
def Mouse_Position_Callback (E : Ext) (st : VMState)
    (xMousePos yMousePos : ℚ) : VMState × ℚ × ℚ :=
  let st :=
    if st.gFirstMouse then
      { st with gLastX := xMousePos, gLastY := yMousePos, gFirstMouse := false }
    else st
  let xOffset := xMousePos - st.gLastX
  let yOffset := st.gLastY - yMousePos
  let st := { st with gLastX := xMousePos, gLastY := yMousePos }
  let sensitivity : ℚ := 2.5
  let xOffset := xOffset * sensitivity
  let yOffset := yOffset * sensitivity
  let st := { st with camera := E.ProcessMouseMovement st.camera xOffset yOffset }
  let st :=
    { st with
        mouseStaticSpeedMultiplier :=
          speedAdjust st.mouseStaticSpeedMultiplier yOffset }
  (st, xOffset, yOffset)

/-- One guarded camera-position assignment, the shape of each of the six
movement-key statements of `ProcessKeyboardEvents` (lines 209-230): if
the key is pressed, overwrite `g_pCamera->Position` with the value of
the right-hand side evaluated in the current state. -/
def positionUpdate (pressed : Bool) (rhs : VMState → Vec3) (st : VMState) : VMState :=
  if pressed then { st with camera := { st.camera with Position := rhs st } } else st

/-- `ViewManager::ProcessKeyboardEvents` (lines 203-235): computes
`cameraSpeed = gDeltaTime * 5.0 * gCameraSpeedMultiplier` (reading the
namespace-scope global, line 206), then applies the six movement-key
position updates in source order (W, S, A, D, Q, E) and finally sets the
window's should-close flag if Escape is pressed (lines 233-234). -/
def ProcessKeyboardEvents (E : Ext) (st : VMState) (k : Keys) : VMState :=
  let cameraSpeed := st.gDeltaTime * 5 * st.gCameraSpeedMultiplier
  let st := positionUpdate k.w
    (fun s => s.camera.Position + cameraSpeed • s.camera.Front) st
  let st := positionUpdate k.s
    (fun s => s.camera.Position - cameraSpeed • s.camera.Front) st
  let st := positionUpdate k.a
    (fun s => s.camera.Position - cameraSpeed • E.normalize (cross s.camera.Front s.camera.Up)) st
  let st := positionUpdate k.d
    (fun s => s.camera.Position + cameraSpeed • E.normalize (cross s.camera.Front s.camera.Up)) st
  let st := positionUpdate k.q
    (fun s => s.camera.Position + cameraSpeed • s.camera.Up) st
  let st := positionUpdate k.e
    (fun s => s.camera.Position - cameraSpeed • s.camera.Up) st
  if k.escape then { st with windowShouldClose := true } else st

/-- One call recorded against the `ShaderManager` sink
(`setMat4Value` / `setVec3Value`, lines 290-294). -/
inductive ShaderCall where
  | setMat4Value (name : String) (value : Mat4)
  | setVec3Value (name : String) (value : Vec3)

/-- The name (string key) of a recorded shader call. -/
def ShaderCall.name : ShaderCall → String
  | .setMat4Value n _ => n
  | .setVec3Value n _ => n

/-- `ViewManager::PrepareSceneView` (lines 246-296): per-frame timing
update from the wall clock (`glfwGetTime` is passed in as
`currentTime`), keyboard processing, view matrix read, projection-mode
toggling on the O/P keys in source order, projection selection by the
toggle, and (when the shader manager is non-null) the three shader
parameter writes.  Returns the updated state and the list of shader
calls made, in order. -/
def PrepareSceneView (E : Ext) (st : VMState) (currentTime : ℚ) (k : Keys) :
    VMState × List ShaderCall :=
  let currentFrame := currentTime
  let st := { st with gDeltaTime := currentFrame - st.gLastFrame, gLastFrame := currentFrame }
  let st := ProcessKeyboardEvents E st k
  let view := E.GetViewMatrix st.camera
  let st := if k.o then { st with bOrthographicProjection := true } else st
  let st := if k.p then { st with bOrthographicProjection := false } else st
  let projection :=
    if st.bOrthographicProjection then
      E.ortho (-10) 10 (-10) 10 0.1 100
    else
      E.perspective (E.radians st.camera.Zoom) (WINDOW_WIDTH / WINDOW_HEIGHT) 0.1 100
  let calls :=
    if st.hasShaderManager then
      [ShaderCall.setMat4Value "view" view,
       ShaderCall.setMat4Value "projection" projection,
       ShaderCall.setVec3Value "viewPosition" st.camera.Position]
    else []
  (st, calls)

/-- Opaque window handle values returned by `glfwCreateWindow`; a null
pointer is `none`. -/
def Window : Type := ℕ

/-- One externally visible side effect of
`ViewManager::CreateDisplayWindow` (lines 96-130), in the order the
source performs them. -/
inductive WinEffect where
  | log (msg : String)
  | glfwTerminate
  | glfwMakeContextCurrent
  | setCursorPosCallback
  | setScrollCallback
  | glEnableBlend
  | glBlendFunc
  deriving DecidableEq

/-- Whether a `WinEffect` is a callback registration or a
graphics-context call (everything past the early-return of line 110). -/
def WinEffect.isPostCreate : WinEffect → Bool
  | .log _ => false
  | .glfwTerminate => false
  | _ => true

/-- `ViewManager::CreateDisplayWindow` (lines 96-130).  `created` is the
handle returned by the external `glfwCreateWindow` call (null = `none`);
`m_pWindow` is the member's value on entry.  Returns the function's
return value, the side-effect trace, and the member's value on exit. -/
def CreateDisplayWindow (created : Option Window) (m_pWindow : Option Window) :
    Option Window × List WinEffect × Option Window :=
  match created with
  | none =>
      (none, [WinEffect.log "Failed to create GLFW window", WinEffect.glfwTerminate],
        m_pWindow)
  | some w =>
      (some w,
        [WinEffect.glfwMakeContextCurrent, WinEffect.setCursorPosCallback,
         WinEffect.setScrollCallback, WinEffect.glEnableBlend, WinEffect.glBlendFunc],
        some w)

/-- One invocation of an operation of this translation unit that touches
`VMState`: a cursor-move event, a scroll event, a direct keyboard poll,
or a full frame of `PrepareSceneView` (which itself polls the
keyboard). -/
inductive Event where
  | mouseMove (x y : ℚ)
  | scroll (dx dy : ℚ)
  | keyboard (k : Keys)
  | frame (t : ℚ) (k : Keys)

/-- Apply one event to the module state. -/
def stepEvent (E : Ext) (st : VMState) : Event → VMState
  | .mouseMove x y => (Mouse_Position_Callback E st x y).1
  | .scroll dx dy => Mouse_Scroll_Callback st dx dy
  | .keyboard k => ProcessKeyboardEvents E st k
  | .frame t k => (PrepareSceneView E st t k).1

/-- Run a sequence of events from a given state. -/
def runEvents (E : Ext) (st : VMState) (evs : List Event) : VMState :=
  evs.foldl (stepEvent E) st

/-- Run a sequence of frames (`PrepareSceneView` once per wall-clock
sample in `ts`) and collect the value `gDeltaTime` holds after each
frame. -/
def frameDeltas (E : Ext) (st : VMState) (k : Keys) : List ℚ → List ℚ
  | [] => []
  | t :: ts =>
      let st' := (PrepareSceneView E st t k).1
      st'.gDeltaTime :: frameDeltas E st' k ts

/-- A concrete instantiation of the external functions, used to evaluate
the theorems on concrete inputs. -/
def extTrivial : Ext where
  normalize := fun _ => ⟨0, 0, 0⟩
  radians := fun x => x
  perspective := fun _ _ _ _ => fun _ _ => 0
  ortho := fun _ _ _ _ _ _ => fun _ _ => 0
  ProcessMouseMovement := fun c _ _ => c
  GetViewMatrix := fun _ => fun _ _ => 0

/-- No key pressed. -/
def keysNone : Keys := ⟨false, false, false, false, false, false, false, false, false⟩

/-- Only W pressed. -/
def keysW : Keys := ⟨true, false, false, false, false, false, false, false, false⟩

/-- Only Escape pressed. -/
def keysEscape : Keys := ⟨false, false, false, false, false, false, true, false, false⟩

/-- Only O pressed. -/
def keysO : Keys := ⟨false, false, false, false, false, false, false, true, false⟩

/-- Only P pressed. -/
def keysP : Keys := ⟨false, false, false, false, false, false, false, false, true⟩

/-- O and P pressed together. -/
def keysOP : Keys := ⟨false, false, false, false, false, false, false, true, true⟩

/-! ### Helper lemmas -/

theorem speedAdjust_lower (m d : ℚ) : 0.1 ≤ speedAdjust m d := by
  simp only [speedAdjust]
  split_ifs <;> linarith

theorem speedAdjust_upper (m d : ℚ) : speedAdjust m d ≤ 10 := by
  simp only [speedAdjust]
  split_ifs <;> linarith

theorem speedAdjust_eq_clamp (m d : ℚ) :
    speedAdjust m d = min 10 (max 0.1 (m + d * 0.1)) := by
  simp only [speedAdjust]
  split_ifs <;> rw [min_def, max_def] <;> split_ifs <;> linarith

theorem Mouse_Scroll_Callback_multiplier (st : VMState) (dx dy : ℚ) :
    (Mouse_Scroll_Callback st dx dy).scrollStaticSpeedMultiplier =
      speedAdjust st.scrollStaticSpeedMultiplier dy := rfl

theorem positionUpdate_gLastX (c : Bool) (f : VMState → Vec3) (st : VMState) :
    (positionUpdate c f st).gLastX = st.gLastX := by
  unfold positionUpdate; split_ifs <;> rfl

theorem positionUpdate_gLastY (c : Bool) (f : VMState → Vec3) (st : VMState) :
    (positionUpdate c f st).gLastY = st.gLastY := by
  unfold positionUpdate; split_ifs <;> rfl

theorem positionUpdate_gFirstMouse (c : Bool) (f : VMState → Vec3) (st : VMState) :
    (positionUpdate c f st).gFirstMouse = st.gFirstMouse := by
  unfold positionUpdate; split_ifs <;> rfl

theorem positionUpdate_gCameraSpeedMultiplier (c : Bool) (f : VMState → Vec3) (st : VMState) :
    (positionUpdate c f st).gCameraSpeedMultiplier = st.gCameraSpeedMultiplier := by
  unfold positionUpdate; split_ifs <;> rfl

theorem positionUpdate_mouseStatic (c : Bool) (f : VMState → Vec3) (st : VMState) :
    (positionUpdate c f st).mouseStaticSpeedMultiplier = st.mouseStaticSpeedMultiplier := by
  unfold positionUpdate; split_ifs <;> rfl

theorem positionUpdate_scrollStatic (c : Bool) (f : VMState → Vec3) (st : VMState) :
    (positionUpdate c f st).scrollStaticSpeedMultiplier = st.scrollStaticSpeedMultiplier := by
  unfold positionUpdate; split_ifs <;> rfl

theorem positionUpdate_gDeltaTime (c : Bool) (f : VMState → Vec3) (st : VMState) :
    (positionUpdate c f st).gDeltaTime = st.gDeltaTime := by
  unfold positionUpdate; split_ifs <;> rfl

theorem positionUpdate_gLastFrame (c : Bool) (f : VMState → Vec3) (st : VMState) :
    (positionUpdate c f st).gLastFrame = st.gLastFrame := by
  unfold positionUpdate; split_ifs <;> rfl

theorem positionUpdate_bOrtho (c : Bool) (f : VMState → Vec3) (st : VMState) :
    (positionUpdate c f st).bOrthographicProjection = st.bOrthographicProjection := by
  unfold positionUpdate; split_ifs <;> rfl

theorem positionUpdate_windowShouldClose (c : Bool) (f : VMState → Vec3) (st : VMState) :
    (positionUpdate c f st).windowShouldClose = st.windowShouldClose := by
  unfold positionUpdate; split_ifs <;> rfl

theorem positionUpdate_hasShaderManager (c : Bool) (f : VMState → Vec3) (st : VMState) :
    (positionUpdate c f st).hasShaderManager = st.hasShaderManager := by
  unfold positionUpdate; split_ifs <;> rfl

theorem positionUpdate_Front (c : Bool) (f : VMState → Vec3) (st : VMState) :
    (positionUpdate c f st).camera.Front = st.camera.Front := by
  unfold positionUpdate; split_ifs <;> rfl

theorem positionUpdate_Up (c : Bool) (f : VMState → Vec3) (st : VMState) :
    (positionUpdate c f st).camera.Up = st.camera.Up := by
  unfold positionUpdate; split_ifs <;> rfl

theorem positionUpdate_Zoom (c : Bool) (f : VMState → Vec3) (st : VMState) :
    (positionUpdate c f st).camera.Zoom = st.camera.Zoom := by
  unfold positionUpdate; split_ifs <;> rfl

theorem positionUpdate_Position (c : Bool) (f : VMState → Vec3) (st : VMState) :
    (positionUpdate c f st).camera.Position = if c then f st else st.camera.Position := by
  unfold positionUpdate; split_ifs <;> rfl

theorem positionUpdate_true (f : VMState → Vec3) (st : VMState) :
    positionUpdate true f st = { st with camera := { st.camera with Position := f st } } :=
  rfl

theorem positionUpdate_false (f : VMState → Vec3) (st : VMState) :
    positionUpdate false f st = st := rfl

theorem ProcessKeyboardEvents_gCameraSpeedMultiplier (E : Ext) (st : VMState) (k : Keys) :
    (ProcessKeyboardEvents E st k).gCameraSpeedMultiplier = st.gCameraSpeedMultiplier := by
  simp only [ProcessKeyboardEvents]
  split_ifs <;> simp only [positionUpdate_gCameraSpeedMultiplier]

theorem ProcessKeyboardEvents_gDeltaTime (E : Ext) (st : VMState) (k : Keys) :
    (ProcessKeyboardEvents E st k).gDeltaTime = st.gDeltaTime := by
  simp only [ProcessKeyboardEvents]
  split_ifs <;> simp only [positionUpdate_gDeltaTime]

theorem ProcessKeyboardEvents_gLastFrame (E : Ext) (st : VMState) (k : Keys) :
    (ProcessKeyboardEvents E st k).gLastFrame = st.gLastFrame := by
  simp only [ProcessKeyboardEvents]
  split_ifs <;> simp only [positionUpdate_gLastFrame]

theorem ProcessKeyboardEvents_bOrtho (E : Ext) (st : VMState) (k : Keys) :
    (ProcessKeyboardEvents E st k).bOrthographicProjection = st.bOrthographicProjection := by
  simp only [ProcessKeyboardEvents]
  split_ifs <;> simp only [positionUpdate_bOrtho]

theorem ProcessKeyboardEvents_hasShaderManager (E : Ext) (st : VMState) (k : Keys) :
    (ProcessKeyboardEvents E st k).hasShaderManager = st.hasShaderManager := by
  simp only [ProcessKeyboardEvents]
  split_ifs <;> simp only [positionUpdate_hasShaderManager]

theorem ProcessKeyboardEvents_Zoom (E : Ext) (st : VMState) (k : Keys) :
    (ProcessKeyboardEvents E st k).camera.Zoom = st.camera.Zoom := by
  simp only [ProcessKeyboardEvents]
  split_ifs <;> simp only [positionUpdate_Zoom]

theorem ProcessKeyboardEvents_windowShouldClose (E : Ext) (st : VMState) (k : Keys) :
    (ProcessKeyboardEvents E st k).windowShouldClose =
      if k.escape then true else st.windowShouldClose := by
  simp only [ProcessKeyboardEvents]
  split_ifs with h <;> simp [h, positionUpdate_windowShouldClose]

theorem Mouse_Position_Callback_gCameraSpeedMultiplier (E : Ext) (st : VMState) (x y : ℚ) :
    (Mouse_Position_Callback E st x y).1.gCameraSpeedMultiplier =
      st.gCameraSpeedMultiplier := by
  unfold Mouse_Position_Callback
  split_ifs <;> rfl

/-- `PrepareSceneView` viewed at the state component only: timing update,
keyboard processing, then the two projection-mode toggles. -/
theorem PrepareSceneView_fst (E : Ext) (st : VMState) (t : ℚ) (k : Keys) :
    (PrepareSceneView E st t k).1 =
      (let st1 := { st with gDeltaTime := t - st.gLastFrame, gLastFrame := t }
       let st2 := ProcessKeyboardEvents E st1 k
       let st3 := if k.o then { st2 with bOrthographicProjection := true } else st2
       if k.p then { st3 with bOrthographicProjection := false } else st3) := rfl

theorem PrepareSceneView_fst_gCameraSpeedMultiplier (E : Ext) (st : VMState)
    (t : ℚ) (k : Keys) :
    (PrepareSceneView E st t k).1.gCameraSpeedMultiplier = st.gCameraSpeedMultiplier := by
  rw [PrepareSceneView_fst]
  simp only [apply_ite VMState.gCameraSpeedMultiplier]
  simp [ProcessKeyboardEvents_gCameraSpeedMultiplier]

theorem PrepareSceneView_fst_gDeltaTime (E : Ext) (st : VMState) (t : ℚ) (k : Keys) :
    (PrepareSceneView E st t k).1.gDeltaTime = t - st.gLastFrame := by
  rw [PrepareSceneView_fst]
  simp only [apply_ite VMState.gDeltaTime]
  simp [ProcessKeyboardEvents_gDeltaTime]

theorem PrepareSceneView_fst_gLastFrame (E : Ext) (st : VMState) (t : ℚ) (k : Keys) :
    (PrepareSceneView E st t k).1.gLastFrame = t := by
  rw [PrepareSceneView_fst]
  simp only [apply_ite VMState.gLastFrame]
  simp [ProcessKeyboardEvents_gLastFrame]

theorem PrepareSceneView_fst_camera (E : Ext) (st : VMState) (t : ℚ) (k : Keys) :
    (PrepareSceneView E st t k).1.camera =
      (ProcessKeyboardEvents E
        { st with gDeltaTime := t - st.gLastFrame, gLastFrame := t } k).camera := by
  rw [PrepareSceneView_fst]
  simp only [apply_ite VMState.camera]
  simp

theorem PrepareSceneView_fst_windowShouldClose (E : Ext) (st : VMState) (t : ℚ) (k : Keys) :
    (PrepareSceneView E st t k).1.windowShouldClose =
      if k.escape then true else st.windowShouldClose := by
  rw [PrepareSceneView_fst]
  simp only [apply_ite VMState.windowShouldClose]
  simp [ProcessKeyboardEvents_windowShouldClose]

/-- `PrepareSceneView` viewed at the shader-call trace: the three
parameter writes of lines 290-294 when the shader manager is non-null,
none otherwise, with the projection selected by the just-toggled flag
(lines 267-284). -/
theorem PrepareSceneView_snd (E : Ext) (st : VMState) (t : ℚ) (k : Keys) :
    (PrepareSceneView E st t k).2 =
      (let st1 := { st with gDeltaTime := t - st.gLastFrame, gLastFrame := t }
       let st2 := ProcessKeyboardEvents E st1 k
       let st3 := if k.o then { st2 with bOrthographicProjection := true } else st2
       let st4 := if k.p then { st3 with bOrthographicProjection := false } else st3
       let projection :=
         if st4.bOrthographicProjection then E.ortho (-10) 10 (-10) 10 0.1 100
         else E.perspective (E.radians st4.camera.Zoom) (WINDOW_WIDTH / WINDOW_HEIGHT) 0.1 100
       if st4.hasShaderManager then
         [ShaderCall.setMat4Value "view" (E.GetViewMatrix st2.camera),
          ShaderCall.setMat4Value "projection" projection,
          ShaderCall.setVec3Value "viewPosition" st4.camera.Position]
       else []) := rfl

theorem Mouse_Position_Callback_windowShouldClose (E : Ext) (st : VMState) (x y : ℚ) :
    (Mouse_Position_Callback E st x y).1.windowShouldClose = st.windowShouldClose := by
  unfold Mouse_Position_Callback
  split_ifs <;> rfl

/-- If the wall-clock samples are a non-decreasing chain starting from
the stored last-frame value, every delta time produced over the run is
non-negative. -/
theorem frameDeltas_nonneg (E : Ext) (k : Keys) :
    ∀ (ts : List ℚ) (st : VMState), List.Chain (· ≤ ·) st.gLastFrame ts →
      ∀ d ∈ frameDeltas E st k ts, 0 ≤ d := by
  intro ts
  induction ts with
  | nil =>
      intro st _ d hd
      simp [frameDeltas] at hd
  | cons t ts ih =>
      intro st h d hd
      rw [List.chain_cons] at h
      obtain ⟨h1, h2⟩ := h
      simp only [frameDeltas, List.mem_cons] at hd
      rcases hd with rfl | hd'
      · rw [PrepareSceneView_fst_gDeltaTime]
        linarith
      · refine ih _ ?_ d hd'
        rw [PrepareSceneView_fst_gLastFrame]
        exact h2

theorem stepEvent_gCameraSpeedMultiplier (E : Ext) (st : VMState) (ev : Event) :
    (stepEvent E st ev).gCameraSpeedMultiplier = st.gCameraSpeedMultiplier := by
  cases ev with
  | mouseMove x y => exact Mouse_Position_Callback_gCameraSpeedMultiplier E st x y
  | scroll dx dy => rfl
  | keyboard k => exact ProcessKeyboardEvents_gCameraSpeedMultiplier E st k
  | frame t k => exact PrepareSceneView_fst_gCameraSpeedMultiplier E st t k

theorem runEvents_gCameraSpeedMultiplier (E : Ext) (st : VMState) (evs : List Event) :
    (runEvents E st evs).gCameraSpeedMultiplier = st.gCameraSpeedMultiplier := by
  induction evs generalizing st with
  | nil => rfl
  | cons ev evs ih =>
      rw [runEvents, List.foldl_cons, ← runEvents, ih, stepEvent_gCameraSpeedMultiplier]

/-! ### Claims -/

/-- C1: For every sequence of scroll events, after each invocation of
`Mouse_Scroll_Callback` the camera-speed multiplier it maintains (its
function-`static` local) lies within `[0.1, 10.0]`, and each event
adjusts it by `0.1` times the vertical scroll delta before clamping to
that interval. -/
theorem scroll_multiplier_invariant (hasShader : Bool) (events : List (ℚ × ℚ))
    (dx dy : ℚ) :
    (0.1 ≤ (Mouse_Scroll_Callback
        (events.foldl (fun s e => Mouse_Scroll_Callback s e.1 e.2)
          (initialVMState hasShader)) dx dy).scrollStaticSpeedMultiplier ∧
      (Mouse_Scroll_Callback
        (events.foldl (fun s e => Mouse_Scroll_Callback s e.1 e.2)
          (initialVMState hasShader)) dx dy).scrollStaticSpeedMultiplier ≤ 10) ∧
    ∀ st : VMState,
      (Mouse_Scroll_Callback st dx dy).scrollStaticSpeedMultiplier =
        min 10 (max 0.1 (st.scrollStaticSpeedMultiplier + dy * 0.1)) := by
  refine ⟨⟨speedAdjust_lower _ _, speedAdjust_upper _ _⟩, fun st => ?_⟩
  rw [Mouse_Scroll_Callback_multiplier, speedAdjust_eq_clamp]

/-- C2: The namespace-scope global `gCameraSpeedMultiplier` read by
`ProcessKeyboardEvents` in its camera-speed formula is never written by
the mouse-move callback, the scroll callback, or any other operation of
the module (each callback updates its own shadowing function-`static`
local), so after every sequence of mouse, scroll, keyboard and frame
events the multiplier used for camera movement still holds its initial
value `1.0`. -/
theorem global_multiplier_stays_one (E : Ext) (hasShader : Bool) (evs : List Event) :
    (runEvents E (initialVMState hasShader) evs).gCameraSpeedMultiplier = 1 := by
  rw [runEvents_gCameraSpeedMultiplier]
  rfl

/-- C3: For every frame, when exactly one movement key (W/S/A/D/Q/E) is
pressed, `ProcessKeyboardEvents` mutates the camera position by exactly
`gDeltaTime * 5.0 * gCameraSpeedMultiplier` along the corresponding
axis: `+Front` for W, `-Front` for S, `-normalize(cross(Front, Up))` for
A, `+normalize(cross(Front, Up))` for D, `+Up` for Q, `-Up` for E; when
no movement key is pressed the camera position is unchanged (whatever
the state of Escape and the O/P keys). -/
theorem keyboard_movement_axes (E : Ext) (st : VMState) (esc o p : Bool) :
    ((ProcessKeyboardEvents E st ⟨true, false, false, false, false, false, esc, o, p⟩).camera.Position =
      st.camera.Position +
        (st.gDeltaTime * 5 * st.gCameraSpeedMultiplier) • st.camera.Front) ∧
    ((ProcessKeyboardEvents E st ⟨false, true, false, false, false, false, esc, o, p⟩).camera.Position =
      st.camera.Position -
        (st.gDeltaTime * 5 * st.gCameraSpeedMultiplier) • st.camera.Front) ∧
    ((ProcessKeyboardEvents E st ⟨false, false, true, false, false, false, esc, o, p⟩).camera.Position =
      st.camera.Position -
        (st.gDeltaTime * 5 * st.gCameraSpeedMultiplier) •
          E.normalize (cross st.camera.Front st.camera.Up)) ∧
    ((ProcessKeyboardEvents E st ⟨false, false, false, true, false, false, esc, o, p⟩).camera.Position =
      st.camera.Position +
        (st.gDeltaTime * 5 * st.gCameraSpeedMultiplier) •
          E.normalize (cross st.camera.Front st.camera.Up)) ∧
    ((ProcessKeyboardEvents E st ⟨false, false, false, false, true, false, esc, o, p⟩).camera.Position =
      st.camera.Position +
        (st.gDeltaTime * 5 * st.gCameraSpeedMultiplier) • st.camera.Up) ∧
    ((ProcessKeyboardEvents E st ⟨false, false, false, false, false, true, esc, o, p⟩).camera.Position =
      st.camera.Position -
        (st.gDeltaTime * 5 * st.gCameraSpeedMultiplier) • st.camera.Up) ∧
    ((ProcessKeyboardEvents E st ⟨false, false, false, false, false, false, esc, o, p⟩).camera.Position =
      st.camera.Position) := by
  refine ⟨?_, ?_, ?_, ?_, ?_, ?_, ?_⟩ <;> cases esc <;>
    simp [ProcessKeyboardEvents, positionUpdate]

/-- C4: On the first invocation of the mouse-position callback (first
mouse flag set), the last-known cursor position is seeded to the
incoming cursor position before the offset is computed, so the yaw and
pitch deltas forwarded to `Camera::ProcessMouseMovement` on that first
event are both exactly zero, for every initial cursor position. -/
theorem first_mouse_zero_offset (E : Ext) (st : VMState) (x y : ℚ)
    (h : st.gFirstMouse = true) :
    (Mouse_Position_Callback E st x y).2 = (0, 0) ∧
    (Mouse_Position_Callback E st x y).1.camera =
      E.ProcessMouseMovement st.camera 0 0 ∧
    (Mouse_Position_Callback E st x y).1.gLastX = x ∧
    (Mouse_Position_Callback E st x y).1.gLastY = y := by
  simp [Mouse_Position_Callback, h, sub_self]

theorem first_mouse_zero_offset_witness :
    (Mouse_Position_Callback extTrivial (initialVMState true) 3 7).2 = (0, 0) :=
  (first_mouse_zero_offset extTrivial (initialVMState true) 3 7 rfl).1

/-- C5: In every frame (shader manager non-null so the selection is
observable in the trace), `PrepareSceneView` selects the projection
matrix by the projection-mode flag polled that same frame: O pressed
(and P not) sets the flag and yields `ortho(-10, 10, -10, 10, 0.1,
100)`; P pressed clears the flag and yields
`perspective(radians(zoom), WINDOW_WIDTH / WINDOW_HEIGHT, 0.1, 100)`;
with neither key pressed, the previously stored flag value selects the
matrix. -/
theorem projection_mode_selection (E : Ext) (st : VMState) (t : ℚ) (k : Keys)
    (hs : st.hasShaderManager = true) :
    (k.o = true → k.p = false →
      (PrepareSceneView E st t k).1.bOrthographicProjection = true ∧
      (PrepareSceneView E st t k).2.get? 1 =
        some (ShaderCall.setMat4Value "projection"
          (E.ortho (-10) 10 (-10) 10 0.1 100))) ∧
    (k.p = true →
      (PrepareSceneView E st t k).1.bOrthographicProjection = false ∧
      (PrepareSceneView E st t k).2.get? 1 =
        some (ShaderCall.setMat4Value "projection"
          (E.perspective (E.radians st.camera.Zoom)
            (WINDOW_WIDTH / WINDOW_HEIGHT) 0.1 100))) ∧
    (k.o = false → k.p = false →
      (PrepareSceneView E st t k).1.bOrthographicProjection =
        st.bOrthographicProjection ∧
      (PrepareSceneView E st t k).2.get? 1 =
        some (ShaderCall.setMat4Value "projection"
          (if st.bOrthographicProjection then E.ortho (-10) 10 (-10) 10 0.1 100
           else E.perspective (E.radians st.camera.Zoom)
             (WINDOW_WIDTH / WINDOW_HEIGHT) 0.1 100))) := by
  refine ⟨fun ho hp => ⟨?_, ?_⟩, fun hp => ⟨?_, ?_⟩, fun ho hp => ⟨?_, ?_⟩⟩ <;>
    first
      | (rw [PrepareSceneView_fst]
         simp [ho, hp, ProcessKeyboardEvents_bOrtho])
      | (rw [PrepareSceneView_fst]
         simp [hp, ProcessKeyboardEvents_bOrtho])
      | (rw [PrepareSceneView_snd]
         simp [ho, hp, hs, apply_ite VMState.hasShaderManager, ite_self,
           ProcessKeyboardEvents_hasShaderManager, ProcessKeyboardEvents_bOrtho,
           ProcessKeyboardEvents_Zoom])
      | (rw [PrepareSceneView_snd]
         simp [hp, hs, apply_ite VMState.hasShaderManager,
           apply_ite VMState.bOrthographicProjection, ite_self,
           ProcessKeyboardEvents_hasShaderManager, ProcessKeyboardEvents_bOrtho,
           apply_ite Camera.Zoom, apply_ite VMState.camera,
           ProcessKeyboardEvents_Zoom])

theorem projection_mode_selection_witness :
    (PrepareSceneView extTrivial (initialVMState true) 1 keysO).1.bOrthographicProjection =
        true ∧
    (PrepareSceneView extTrivial (initialVMState true) 1 keysO).2.get? 1 =
      some (ShaderCall.setMat4Value "projection"
        (extTrivial.ortho (-10) 10 (-10) 10 0.1 100)) :=
  (projection_mode_selection extTrivial (initialVMState true) 1 keysO rfl).1 rfl rfl

/-- C6: When both O and P are pressed during the same frame,
`PrepareSceneView` resolves the conflict last-write-wins in poll order
(O is polled before P): the projection-mode flag ends the frame `false`
and the perspective projection matrix is selected. -/
theorem both_projection_keys_last_write_wins (E : Ext) (st : VMState) (t : ℚ)
    (k : Keys) (ho : k.o = true) (hp : k.p = true) :
    (PrepareSceneView E st t k).1.bOrthographicProjection = false ∧
    (st.hasShaderManager = true →
      (PrepareSceneView E st t k).2.get? 1 =
        some (ShaderCall.setMat4Value "projection"
          (E.perspective (E.radians st.camera.Zoom)
            (WINDOW_WIDTH / WINDOW_HEIGHT) 0.1 100))) := by
  constructor
  · rw [PrepareSceneView_fst]
    simp [ho, hp]
  · intro hs
    rw [PrepareSceneView_snd]
    simp [ho, hp, hs, apply_ite VMState.hasShaderManager, ite_self,
      ProcessKeyboardEvents_hasShaderManager, ProcessKeyboardEvents_Zoom]

theorem both_projection_keys_witness :
    (PrepareSceneView extTrivial (initialVMState true) 1 keysOP).1.bOrthographicProjection =
      false :=
  (both_projection_keys_last_write_wins extTrivial (initialVMState true) 1 keysOP
    rfl rfl).1

/-- C7: If window creation fails (`glfwCreateWindow` returns a null
handle), `CreateDisplayWindow` logs the failure message, terminates the
windowing subsystem, and returns null; it makes no further
graphics-context or callback-registration calls and leaves the stored
`m_pWindow` member unchanged. -/
theorem create_window_failure (m0 : Option Window) :
    CreateDisplayWindow none m0 =
      (none,
        [WinEffect.log "Failed to create GLFW window", WinEffect.glfwTerminate],
        m0) ∧
    ((CreateDisplayWindow none m0).2.1.all fun eff => !eff.isPostCreate) = true :=
  ⟨rfl, rfl⟩

/-- C8: For every sequence of frames whose wall-clock samples are
monotone non-decreasing starting at or above the initial last-frame
value `0`, the delta time computed by `PrepareSceneView` is non-negative
after each frame. -/
theorem frame_delta_time_nonneg (E : Ext) (k : Keys) (hasShader : Bool)
    (ts : List ℚ)
    (h : List.Chain (· ≤ ·) (initialVMState hasShader).gLastFrame ts) :
    ∀ d ∈ frameDeltas E (initialVMState hasShader) k ts, 0 ≤ d :=
  frameDeltas_nonneg E k ts _ h

theorem frame_delta_time_nonneg_witness :
    0 ≤ (PrepareSceneView extTrivial (initialVMState true) 1 keysNone).1.gDeltaTime :=
  frame_delta_time_nonneg extTrivial keysNone true [1]
    (List.Chain.cons zero_le_one List.Chain.nil)
    ((PrepareSceneView extTrivial (initialVMState true) 1 keysNone).1.gDeltaTime)
    (List.mem_singleton.mpr rfl)

/-- C9: For every frame, if Escape is pressed `ProcessKeyboardEvents`
sets the window's should-close flag; if Escape is not pressed, the flag
is not written by any operation of this module (keyboard poll, frame
preparation, mouse-move callback, scroll callback). -/
theorem escape_sets_close_flag (E : Ext) (st : VMState) (k : Keys)
    (t x y dx dy : ℚ) :
    (k.escape = true →
      (ProcessKeyboardEvents E st k).windowShouldClose = true) ∧
    (k.escape = false →
      (ProcessKeyboardEvents E st k).windowShouldClose = st.windowShouldClose) ∧
    (k.escape = false →
      (PrepareSceneView E st t k).1.windowShouldClose = st.windowShouldClose) ∧
    (Mouse_Position_Callback E st x y).1.windowShouldClose = st.windowShouldClose ∧
    (Mouse_Scroll_Callback st dx dy).windowShouldClose = st.windowShouldClose := by
  refine ⟨fun h => ?_, fun h => ?_, fun h => ?_,
    Mouse_Position_Callback_windowShouldClose E st x y, rfl⟩
  · rw [ProcessKeyboardEvents_windowShouldClose, if_pos h]
  · rw [ProcessKeyboardEvents_windowShouldClose, if_neg (by simp [h])]
  · rw [PrepareSceneView_fst_windowShouldClose, if_neg (by simp [h])]

theorem escape_sets_close_flag_witness :
    (ProcessKeyboardEvents extTrivial (initialVMState true) keysEscape).windowShouldClose =
      true :=
  (escape_sets_close_flag extTrivial (initialVMState true) keysEscape 0 0 0 0 0).1 rfl

/-- C10: When the shader-manager pointer is null, `PrepareSceneView`
performs no shader-parameter writes while still updating the
frame-timing state and processing keyboard events; when it is non-null,
exactly three parameters are set, under the fixed keys `"view"`,
`"projection"` and `"viewPosition"`, in that order. -/
theorem null_shader_manager_guard (E : Ext) (st : VMState) (t : ℚ) (k : Keys) :
    (st.hasShaderManager = false →
      (PrepareSceneView E st t k).2 = [] ∧
      (PrepareSceneView E st t k).1.gDeltaTime = t - st.gLastFrame ∧
      (PrepareSceneView E st t k).1.gLastFrame = t ∧
      (PrepareSceneView E st t k).1.camera =
        (ProcessKeyboardEvents E
          { st with gDeltaTime := t - st.gLastFrame, gLastFrame := t } k).camera) ∧
    (st.hasShaderManager = true →
      (PrepareSceneView E st t k).2.map ShaderCall.name =
        ["view", "projection", "viewPosition"]) := by
  constructor
  · intro hs
    refine ⟨?_, PrepareSceneView_fst_gDeltaTime E st t k,
      PrepareSceneView_fst_gLastFrame E st t k, PrepareSceneView_fst_camera E st t k⟩
    rw [PrepareSceneView_snd]
    simp [hs, apply_ite VMState.hasShaderManager, ite_self,
      ProcessKeyboardEvents_hasShaderManager]
  · intro hs
    rw [PrepareSceneView_snd]
    simp [hs, apply_ite VMState.hasShaderManager, ite_self,
      ProcessKeyboardEvents_hasShaderManager, ShaderCall.name]

theorem null_shader_manager_guard_witness :
    (PrepareSceneView extTrivial (initialVMState false) 1 keysNone).2 = [] ∧
    (PrepareSceneView extTrivial (initialVMState true) 1 keysNone).2.map ShaderCall.name =
      ["view", "projection", "viewPosition"] :=
  ⟨((null_shader_manager_guard extTrivial (initialVMState false) 1 keysNone).1 rfl).1,
    (null_shader_manager_guard extTrivial (initialVMState true) 1 keysNone).2 rfl⟩

end ViewManagerSpec
